import Mathlib

/-!
Shallow embedding of the replica split / duplication layer of rDSN
(src/src/replica/split/replica_split_manager.h): the implementation of
`replica_duplicator` and the parent-side partition-split protocol, with
theorems checking the design document's claims. Decrees and ballots are
int64 counters in the source; the operations embedded here only compare
and take maxima, so they are modelled on `Int`.
-/

namespace Rdsn

/-- Duplication status values (the subset relevant to `replica_duplicator`). -/
inductive duplication_status where
  | DS_INIT
  | DS_START
  | DS_PAUSE
  | DS_REMOVED
  deriving DecidableEq, Repr

/-- Printable name of a duplication status. -/
def duplication_status_to_string : duplication_status → String
  | duplication_status.DS_INIT => "DS_INIT"
  | duplication_status.DS_START => "DS_START"
  | duplication_status.DS_PAUSE => "DS_PAUSE"
  | duplication_status.DS_REMOVED => "DS_REMOVED"

/-- Watermark pair of one duplication task (struct `duplication_progress`). -/
structure duplication_progress where
  last_decree : Int
  confirmed_decree : Int
  deriving DecidableEq, Repr

/-- Embedding of `replica_duplicator::update_progress`. The source holds the
write lock, runs `dassert_replica(p.confirmed_decree <= 0 ||
_progress.confirmed_decree <= p.confirmed_decree, ...)`, merges both decrees
with `std::max`, and runs `dassert_replica(_progress.confirmed_decree <=
_progress.last_decree, ...)`. A `dassert_replica` whose condition is false is
a fatal assertion (process halt); such a call is modelled as `none`. -/
def update_progress (s p : duplication_progress) : Option duplication_progress :=
  if p.confirmed_decree ≤ 0 ∨ s.confirmed_decree ≤ p.confirmed_decree then
    if max s.confirmed_decree p.confirmed_decree ≤ max s.last_decree p.last_decree then
      some { last_decree := max s.last_decree p.last_decree,
             confirmed_decree := max s.confirmed_decree p.confirmed_decree }
    else none
  else none

/-- Iterate `update_progress` over a list of reported progresses, recording
every intermediate state; `none` as soon as one call is fatal. -/
def run_states (s : duplication_progress) :
    List duplication_progress → Option (List duplication_progress)
  | [] => some []
  | p :: ps =>
    match update_progress s p with
    | none => none
    | some t =>
      match run_states t ps with
      | none => none
      | some l => some (t :: l)

/-- Error codes observable from `replica_duplicator::verify_start_decree`. -/
inductive error_code where
  | ERR_OK
  | ERR_CORRUPTION
  deriving DecidableEq, Repr

/-- Embedding of `replica_duplicator::verify_start_decree`: if
`max_gced_decree >= start_decree` it returns `error_s::make(ERR_CORRUPTION,
...)`, otherwise `error_s::ok()`. The max-gced decree comes from the private
log collaborator and is passed in as a parameter. -/
def verify_start_decree (max_gced_decree start_decree : Int) : error_code :=
  if max_gced_decree ≥ start_decree then error_code.ERR_CORRUPTION
  else error_code.ERR_OK

/-- The duplication task descriptor (`duplication_entry`) delivered by the
metadata service: task id, status, remote cluster address, and the
per-partition confirmed-decree progress map (modelled as an association
list from partition index to decree). -/
structure duplication_entry where
  dupid : Int
  status : duplication_status
  remote_address : String
  progress : List (Nat × Int)
  deriving DecidableEq, Repr

/-- The state of one duplication coordinator (`replica_duplicator`):
its id, remote cluster address, status, progress watermarks, and whether
the pipeline is currently running (`start()` has been entered). -/
structure replica_duplicator where
  id : Int
  remote_cluster_address : String
  status : duplication_status
  progress : duplication_progress
  started : Bool
  deriving DecidableEq, Repr

/-- Embedding of the constructor `replica_duplicator::replica_duplicator`.
The source asserts fatally (`dassert_replica`) that the descriptor status is
DS_START or DS_PAUSE, looks this replica's partition index up in
`ent.progress` and asserts fatally that the entry exists, seeds
`_progress.last_decree = _progress.confirmed_decree = it->second`, wires the
pipeline, and calls `start()` iff the status is DS_START. Fatal assertion
failure is modelled as `none`. -/
def replica_duplicator.construct (ent : duplication_entry) (partition_index : Nat) :
    Option replica_duplicator :=
  if ent.status = duplication_status.DS_START ∨ ent.status = duplication_status.DS_PAUSE then
    (ent.progress.lookup partition_index).map (fun d =>
      { id := ent.dupid,
        remote_cluster_address := ent.remote_address,
        status := ent.status,
        progress := { last_decree := d, confirmed_decree := d },
        started := decide (ent.status = duplication_status.DS_START) })
  else none

/-- Embedding of `replica_duplicator::update_status_if_needed`. The source
returns early when the status is unchanged; otherwise it overwrites
`_status` with `next_status` first, then calls `start()` for DS_START,
`pause()` for DS_PAUSE, and for every other value executes
`dassert("unexpected duplication status (%s)", duplication_status_to_string(next_status))`.
In the `dassert(x, ...)` macro the first argument is the asserted condition;
here that argument is the message string literal, which is never null, so
the assertion can never fire: the function falls through and returns
normally with `_status` already overwritten. A fatal assertion would be
modelled as `none`; this fallthrough therefore yields `some`. -/
def update_status_if_needed (r : replica_duplicator) (next_status : duplication_status) :
    Option replica_duplicator :=
  if r.status = next_status then some r
  else if next_status = duplication_status.DS_START then
    some { r with status := next_status, started := true }
  else if next_status = duplication_status.DS_PAUSE then
    some { r with status := next_status, started := false }
  else
    some { r with status := next_status }

/-- A JSON scalar as produced by `replica_duplicator::to_string`. -/
inductive json_value where
  | num (n : Int)
  | str (s : String)
  deriving DecidableEq, Repr

/-- Embedding of `replica_duplicator::to_string`: the rapidjson document is
modelled as its ordered member list (formatting is not load-bearing). The
source adds exactly the members "dupid" (task id), "status", "remote"
(remote cluster address), "confirmed" (confirmed decree) and "app" (the
owning application's name, fetched from the replica collaborator and passed
in as a parameter here). -/
def replica_duplicator.to_string (r : replica_duplicator) (app_name : String) :
    List (String × json_value) :=
  [("dupid", json_value.num r.id),
   ("status", json_value.str (duplication_status_to_string r.status)),
   ("remote", json_value.str r.remote_cluster_address),
   ("confirmed", json_value.num r.progress.confirmed_decree),
   ("app", json_value.str app_name)]

/-- Partition identity: (application id, partition index), `dsn::gpid`. -/
structure gpid where
  app_id : Int
  pidx : Int
  deriving DecidableEq, Repr

/-- Phases of a parent-side split attempt, following spec section 4.1
(Idle, PreparingChild, WaitingCatchUp, Registering, Active). -/
inductive split_phase where
  | idle
  | preparing_child
  | waiting_catch_up
  | registering
  | active
  deriving DecidableEq, Repr

/-- Modelled from the spec: the bodies of the `replica_split_manager` methods
(`on_add_child`, `parent_handle_child_catch_up`, `register_child_on_meta`,
`on_register_child_on_meta_reply`, `parent_cleanup_split_context`) are only
declared in src/src/replica/split/replica_split_manager.h; their
implementation file is not under src/. The state follows the header's
fields (lines 122-130): `_child_gpid`, whose app_id is 0 when no split is
active, `_child_init_ballot`, 0 when no split is active, and
`_partition_version`, normally partition_count - 1. The phase field is the
parent-side state machine of spec section 4.1. -/
structure replica_split_manager where
  parent_gpid : gpid
  old_partition_count : Int
  phase : split_phase
  child_gpid : gpid
  child_init_ballot : Int
  partition_version : Int
  deriving DecidableEq, Repr

/-- Modelled from the spec: `parent_cleanup_split_context` (header line 100:
"parent reset child information when partition split failed") resets the
child identity to the null identity with app_id 0 (header line 123), clears
the split-start ballot (header line 127), returns the phase to idle, and
restores the partition version to its pre-split value
partition_count - 1 (header line 128, spec section 8). -/
def parent_cleanup_split_context (s : replica_split_manager) : replica_split_manager :=
  { s with phase := split_phase.idle,
           child_gpid := { app_id := 0, pidx := 0 },
           child_init_ballot := 0,
           partition_version := s.old_partition_count - 1 }

/-- Modelled from the spec: the parent-side protocol events of spec section
4.1, each carrying the ballot the parent observes while handling it:
the group-check instruction starting the split, the completion of the
state-transfer dispatch, the child's catch-up notification (with whether
the sync point has committed), and the metadata service's reply to the
register-child request. -/
inductive split_event where
  | on_add_child (b : Int)
  | prepare_done (b : Int)
  | child_catch_up (b : Int) (sync_point_committed : Bool)
  | register_reply (b : Int) (success : Bool)
  deriving DecidableEq, Repr

/-- The ballot observed at an event. -/
def split_event.ballot : split_event → Int
  | split_event.on_add_child b => b
  | split_event.prepare_done b => b
  | split_event.child_catch_up b _ => b
  | split_event.register_reply b _ => b

/-- Outward actions of the parent split coordinator. -/
inductive split_action where
  | send_register_request (child : gpid) (b : Int)
  deriving DecidableEq, Repr

/-- Modelled from the spec: one parent-side step of the split protocol
(spec section 4.1). `on_add_child` starts a split from idle, recording the
derived child identity — same app id, new index = old index + old partition
count (header lines 122-124) — and the ballot at split start. Every
subsequent step first compares the observed ballot with the recorded
split-start ballot and unconditionally cleans up the split context on a
mismatch ("Any state → Idle"). The register-child request is sent only when
the child's catch-up notification reports the sync point committed
(WaitingCatchUp → Registering); while registering, the partition version is
the reject-requests sentinel -1 (header line 129); a successful register
reply commits the doubled partition count. -/
def split_step (s : replica_split_manager) (e : split_event) :
    replica_split_manager × List split_action :=
  match e with
  | split_event.on_add_child b =>
    if s.phase = split_phase.idle then
      ({ s with phase := split_phase.preparing_child,
                child_gpid := { app_id := s.parent_gpid.app_id,
                                pidx := s.parent_gpid.pidx + s.old_partition_count },
                child_init_ballot := b }, [])
    else (s, [])
  | split_event.prepare_done b =>
    if b ≠ s.child_init_ballot then (parent_cleanup_split_context s, [])
    else if s.phase = split_phase.preparing_child then
      ({ s with phase := split_phase.waiting_catch_up }, [])
    else (s, [])
  | split_event.child_catch_up b sync_point_committed =>
    if b ≠ s.child_init_ballot then (parent_cleanup_split_context s, [])
    else if s.phase = split_phase.waiting_catch_up ∧ sync_point_committed then
      ({ s with phase := split_phase.registering, partition_version := -1 },
       [split_action.send_register_request s.child_gpid b])
    else (s, [])
  | split_event.register_reply b success =>
    if b ≠ s.child_init_ballot then (parent_cleanup_split_context s, [])
    else if s.phase = split_phase.registering then
      if success then
        ({ s with phase := split_phase.active,
                  partition_version := 2 * s.old_partition_count - 1 }, [])
      else (parent_cleanup_split_context s, [])
    else (s, [])

/-- Run a sequence of split events, accumulating the emitted actions. -/
def split_run (s : replica_split_manager) :
    List split_event → replica_split_manager × List split_action
  | [] => (s, [])
  | e :: es =>
    ((split_run (split_step s e).1 es).1,
     (split_step s e).2 ++ (split_run (split_step s e).1 es).2)

/-- An example parent not currently splitting: partition (1, 0) of a
4-partition app. -/
def split_ex_idle : replica_split_manager :=
  { parent_gpid := { app_id := 1, pidx := 0 },
    old_partition_count := 4,
    phase := split_phase.idle,
    child_gpid := { app_id := 0, pidx := 0 },
    child_init_ballot := 0,
    partition_version := 3 }

/-- An example parent waiting for its child's catch-up, split started at
ballot 7. -/
def split_ex_waiting : replica_split_manager :=
  { parent_gpid := { app_id := 1, pidx := 0 },
    old_partition_count := 4,
    phase := split_phase.waiting_catch_up,
    child_gpid := { app_id := 1, pidx := 4 },
    child_init_ballot := 7,
    partition_version := 3 }

/-- Helper: everything a successful (non-fatal) `update_progress` call
guarantees about the merged state. -/
theorem update_progress_some (s p m : duplication_progress)
    (h : update_progress s p = some m) :
    m.confirmed_decree = max s.confirmed_decree p.confirmed_decree ∧
      m.last_decree = max s.last_decree p.last_decree ∧
      m.confirmed_decree ≤ m.last_decree := by
  unfold update_progress at h
  split at h
  · split at h
    · rename_i hmle
      injection h with h
      subst h
      exact ⟨rfl, rfl, hmle⟩
    · exact Option.noConfusion h
  · exact Option.noConfusion h

/-- Helper: every successful run of `update_progress` calls keeps
`confirmed_decree` non-decreasing and `confirmed_decree ≤ last_decree`
after every call. -/
theorem run_states_invariant (s : duplication_progress) (ps : List duplication_progress)
    (l : List duplication_progress) (h : run_states s ps = some l) :
    List.Chain' (fun a b : duplication_progress =>
        a.confirmed_decree ≤ b.confirmed_decree) (s :: l) ∧
      ∀ t ∈ l, t.confirmed_decree ≤ t.last_decree := by
  induction ps generalizing s l with
  | nil =>
    simp only [run_states, Option.some.injEq] at h
    subst h
    simp
  | cons p ps ih =>
    unfold run_states at h
    cases hu : update_progress s p with
    | none => rw [hu] at h; exact Option.noConfusion h
    | some t =>
      rw [hu] at h
      dsimp only at h
      cases hr : run_states t ps with
      | none => rw [hr] at h; exact Option.noConfusion h
      | some l2 =>
        rw [hr] at h
        injection h with h
        subst h
        obtain ⟨hc, hb⟩ := ih t l2 hr
        obtain ⟨hm1, hm2, hm3⟩ := update_progress_some s p t hu
        refine ⟨List.chain'_cons.mpr ⟨?_, hc⟩, ?_⟩
        · rw [hm1]; exact le_max_left _ _
        · intro x hx
          rcases List.mem_cons.mp hx with h1 | h2
          · subst h1; exact hm3
          · exact hb x h2

/-- Claim C1 (counterexample): a call whose confirmed_decree is non-positive
and strictly smaller than the held confirmed_decree is neither rejected
fatally nor applied: with held progress (5, 5), reporting (0, 0) passes the
assertion (its escape clause admits any confirmed_decree <= 0) and the
max-merge leaves the state unchanged. -/
theorem update_progress_nonpositive_escape :
    (duplication_progress.mk 0 0).confirmed_decree <
        (duplication_progress.mk 5 5).confirmed_decree ∧
      update_progress (duplication_progress.mk 5 5) (duplication_progress.mk 0 0) =
        some (duplication_progress.mk 5 5) := by
  constructor
  · decide
  · decide

/-- Claim C1 (amended): for every call to update_progress(p) in which
p.confirmed_decree is positive and strictly smaller than the currently held
confirmed_decree, the call is rejected with a fatal assertion failure. -/
theorem update_progress_regress_fatal (s p : duplication_progress)
    (hpos : 0 < p.confirmed_decree)
    (hlt : p.confirmed_decree < s.confirmed_decree) :
    update_progress s p = none := by
  have h : ¬ (p.confirmed_decree ≤ 0 ∨ s.confirmed_decree ≤ p.confirmed_decree) := by
    push_neg
    exact ⟨hpos, hlt⟩
  simp [update_progress, h]

/-- Witness for claim C1's amended theorem at held progress (5, 5) and
reported progress (3, 3). -/
theorem update_progress_regress_fatal_witness :
    update_progress (duplication_progress.mk 5 5) (duplication_progress.mk 3 3) = none :=
  update_progress_regress_fatal (duplication_progress.mk 5 5)
    (duplication_progress.mk 3 3) (by decide) (by decide)

/-- Claim C2: every non-fatal update_progress call merges both decrees by
max, and along every successful sequence of calls confirmed_decree is
non-decreasing and confirmed_decree ≤ last_decree holds after every call. -/
theorem update_progress_merge_and_monotone :
    (∀ s p m, update_progress s p = some m →
        m.confirmed_decree = max s.confirmed_decree p.confirmed_decree ∧
          m.last_decree = max s.last_decree p.last_decree) ∧
      ∀ s ps l, run_states s ps = some l →
        List.Chain' (fun a b : duplication_progress =>
            a.confirmed_decree ≤ b.confirmed_decree) (s :: l) ∧
          ∀ t ∈ l, t.confirmed_decree ≤ t.last_decree :=
  ⟨fun s p m h =>
    ⟨(update_progress_some s p m h).1, (update_progress_some s p m h).2.1⟩,
   fun s ps l h => run_states_invariant s ps l h⟩

/-- Witness for claim C2 at the run (5, 5) → [(9, 7)]. -/
theorem update_progress_merge_and_monotone_witness :
    List.Chain' (fun a b : duplication_progress =>
        a.confirmed_decree ≤ b.confirmed_decree)
        [duplication_progress.mk 5 5, duplication_progress.mk 9 7] ∧
      ∀ t ∈ [duplication_progress.mk 9 7], t.confirmed_decree ≤ t.last_decree :=
  update_progress_merge_and_monotone.2 (duplication_progress.mk 5 5)
    [duplication_progress.mk 9 7] [duplication_progress.mk 9 7] (by decide)

/-- Claim C3: verify_start_decree returns the corruption error iff the max
garbage-collected decree is ≥ the start decree, and succeeds whenever the
start decree is strictly greater. -/
theorem verify_start_decree_corruption_iff (max_gced d : Int) :
    (verify_start_decree max_gced d = error_code.ERR_CORRUPTION ↔ max_gced ≥ d) ∧
      (max_gced < d → verify_start_decree max_gced d = error_code.ERR_OK) := by
  by_cases h : max_gced ≥ d
  · constructor
    · simp [verify_start_decree, h]
    · intro hlt
      exact absurd h (not_le.mpr hlt)
  · constructor
    · simp [verify_start_decree, h]
    · intro _
      simp [verify_start_decree, h]

/-- Witness for claim C3 at max_gced_decree 5 with start decrees 5 and 6. -/
theorem verify_start_decree_corruption_iff_witness :
    verify_start_decree 5 5 = error_code.ERR_CORRUPTION ∧
      verify_start_decree 5 6 = error_code.ERR_OK :=
  ⟨(verify_start_decree_corruption_iff 5 5).1.mpr (by decide),
   (verify_start_decree_corruption_iff 5 6).2 (by decide)⟩

/-- Claim C4: after a successful construction of a duplication coordinator,
last_decree equals confirmed_decree and both equal the descriptor's
confirmed-decree progress value for this coordinator's partition. -/
theorem construct_seeds_progress (ent : duplication_entry) (pidx : Nat)
    (r : replica_duplicator) (h : replica_duplicator.construct ent pidx = some r) :
    r.progress.last_decree = r.progress.confirmed_decree ∧
      ent.progress.lookup pidx = some r.progress.confirmed_decree := by
  unfold replica_duplicator.construct at h
  split at h
  · rw [Option.map_eq_some'] at h
    obtain ⟨d, hl, hf⟩ := h
    subst hf
    exact ⟨rfl, hl⟩
  · exact Option.noConfusion h

/-- Witness for claim C4: a descriptor with status DS_PAUSE and progress
entry 100 for partition 3. -/
theorem construct_seeds_progress_witness :
    (duplication_entry.mk 1 duplication_status.DS_PAUSE "cluster-b" [(3, 100)]).progress.lookup 3 =
      some (duplication_progress.mk 100 100).confirmed_decree ∧
      (duplication_progress.mk 100 100).last_decree =
        (duplication_progress.mk 100 100).confirmed_decree :=
  ⟨(construct_seeds_progress
      (duplication_entry.mk 1 duplication_status.DS_PAUSE "cluster-b" [(3, 100)]) 3
      (replica_duplicator.mk 1 "cluster-b" duplication_status.DS_PAUSE
        (duplication_progress.mk 100 100) false) (by rfl)).2,
   (construct_seeds_progress
      (duplication_entry.mk 1 duplication_status.DS_PAUSE "cluster-b" [(3, 100)]) 3
      (replica_duplicator.mk 1 "cluster-b" duplication_status.DS_PAUSE
        (duplication_progress.mk 100 100) false) (by rfl)).1⟩

/-- Claim C5: the spec says any status other than DS_START or DS_PAUSE
reaching update_status_if_needed is a fatal assertion, and the final
branch's own message ("unexpected duplication status") shows that intent,
but the source passes that message string as the dassert condition, so the
assertion never fires: at the failing input (current status DS_PAUSE,
requested DS_REMOVED) the call returns normally with the status
overwritten instead of halting. -/
theorem update_status_unexpected_not_fatal :
    update_status_if_needed
        (replica_duplicator.mk 1 "cluster-b" duplication_status.DS_PAUSE
          (duplication_progress.mk 5 5) false)
        duplication_status.DS_REMOVED =
      some (replica_duplicator.mk 1 "cluster-b" duplication_status.DS_REMOVED
        (duplication_progress.mk 5 5) false) := by
  rfl

/-- Claim C9: the status snapshot serialized by to_string carries exactly
the members dupid (task id), status, remote (remote cluster address),
confirmed (confirmed decree) and app (owning application name), in this
order — none missing, none added. -/
theorem to_string_field_set (r : replica_duplicator) (app_name : String) :
    (r.to_string app_name).map Prod.fst =
      ["dupid", "status", "remote", "confirmed", "app"] := by
  rfl

/-- Claim C10: construction of a duplication coordinator succeeds (is not a
fatal assertion) iff the descriptor status is DS_START or DS_PAUSE and the
progress map has an entry for this partition; when it succeeds, the
pipeline is started iff the descriptor status is DS_START. -/
theorem construct_contract (ent : duplication_entry) (pidx : Nat) :
    ((replica_duplicator.construct ent pidx).isSome ↔
        ((ent.status = duplication_status.DS_START ∨
            ent.status = duplication_status.DS_PAUSE) ∧
          (ent.progress.lookup pidx).isSome)) ∧
      ∀ r, replica_duplicator.construct ent pidx = some r →
        (r.started = true ↔ ent.status = duplication_status.DS_START) := by
  constructor
  · unfold replica_duplicator.construct
    split
    · rename_i hstat
      cases ent.progress.lookup pidx with
      | none => simp [hstat]
      | some d => simp [hstat]
    · rename_i hstat
      simp [hstat]
  · intro r h
    unfold replica_duplicator.construct at h
    split at h
    · rw [Option.map_eq_some'] at h
      obtain ⟨d, hl, hf⟩ := h
      subst hf
      simp
    · exact Option.noConfusion h

/-- Witness for claim C10: the DS_START descriptor with an entry for
partition 0 constructs successfully and starts the pipeline. -/
theorem construct_contract_witness :
    ((replica_duplicator.construct
          (duplication_entry.mk 2 duplication_status.DS_START "cluster-b" [(0, 7)]) 0).isSome ↔
        (((duplication_entry.mk 2 duplication_status.DS_START "cluster-b" [(0, 7)]).status =
              duplication_status.DS_START ∨
            (duplication_entry.mk 2 duplication_status.DS_START "cluster-b" [(0, 7)]).status =
              duplication_status.DS_PAUSE) ∧
          ((duplication_entry.mk 2 duplication_status.DS_START "cluster-b"
              [(0, 7)]).progress.lookup 0).isSome)) ∧
      ((replica_duplicator.mk 2 "cluster-b" duplication_status.DS_START
            (duplication_progress.mk 7 7) true).started = true ↔
        (duplication_entry.mk 2 duplication_status.DS_START "cluster-b" [(0, 7)]).status =
          duplication_status.DS_START) :=
  ⟨(construct_contract
      (duplication_entry.mk 2 duplication_status.DS_START "cluster-b" [(0, 7)]) 0).1,
   (construct_contract
      (duplication_entry.mk 2 duplication_status.DS_START "cluster-b" [(0, 7)]) 0).2
     (replica_duplicator.mk 2 "cluster-b" duplication_status.DS_START
       (duplication_progress.mk 7 7) true) (by rfl)⟩

/-- Claim C6: at every step after split start (i.e. every event other than
the split-starting group-check instruction), observing a ballot different
from the ballot recorded at split start ends the attempt in the cleaned-up
idle state: the child gpid is reset to app_id 0 and the partition version
is restored to its pre-split value old_partition_count - 1. -/
theorem ballot_change_cleans_up (s : replica_split_manager) (e : split_event)
    (hne : ∀ b, e ≠ split_event.on_add_child b)
    (hb : e.ballot ≠ s.child_init_ballot) :
    (split_step s e).1.phase = split_phase.idle ∧
      (split_step s e).1.child_gpid.app_id = 0 ∧
      (split_step s e).1.partition_version = s.old_partition_count - 1 := by
  cases e with
  | on_add_child b => exact absurd rfl (hne b)
  | prepare_done b =>
    simp only [split_event.ballot] at hb
    simp [split_step, hb, parent_cleanup_split_context]
  | child_catch_up b flag =>
    simp only [split_event.ballot] at hb
    simp [split_step, hb, parent_cleanup_split_context]
  | register_reply b success =>
    simp only [split_event.ballot] at hb
    simp [split_step, hb, parent_cleanup_split_context]

/-- Witness for claim C6: a parent waiting for catch-up with split-start
ballot 7 receives the child's catch-up notification at ballot 8. -/
theorem ballot_change_cleans_up_witness :
    (split_step split_ex_waiting (split_event.child_catch_up 8 true)).1.phase =
        split_phase.idle ∧
      (split_step split_ex_waiting
          (split_event.child_catch_up 8 true)).1.child_gpid.app_id = 0 ∧
      (split_step split_ex_waiting
          (split_event.child_catch_up 8 true)).1.partition_version =
        split_ex_waiting.old_partition_count - 1 :=
  ballot_change_cleans_up split_ex_waiting (split_event.child_catch_up 8 true)
    (fun b h => split_event.noConfusion h) (by decide)

/-- Claim C7: starting a split from the idle state records the derived
child identity: same app id, partition index = parent index + old partition
count. -/
theorem child_gpid_derived (s : replica_split_manager) (b : Int)
    (h : s.phase = split_phase.idle) :
    (split_step s (split_event.on_add_child b)).1.child_gpid =
      { app_id := s.parent_gpid.app_id,
        pidx := s.parent_gpid.pidx + s.old_partition_count } := by
  simp [split_step, h]

/-- Witness for claim C7: the idle parent (1, 0) of a 4-partition app
starts a split at ballot 7 and records child (1, 4). -/
theorem child_gpid_derived_witness :
    (split_step split_ex_idle (split_event.on_add_child 7)).1.child_gpid =
      { app_id := split_ex_idle.parent_gpid.app_id,
        pidx := split_ex_idle.parent_gpid.pidx + split_ex_idle.old_partition_count } :=
  child_gpid_derived split_ex_idle 7 (by rfl)

/-- Helper for claim C8: a single split step emits the register-child
request only while handling a child catch-up notification that reports the
sync point committed. -/
theorem split_step_register_source (s : replica_split_manager) (e : split_event)
    (g : gpid) (b' : Int)
    (h : split_action.send_register_request g b' ∈ (split_step s e).2) :
    ∃ b, e = split_event.child_catch_up b true := by
  cases e with
  | on_add_child b =>
    exfalso
    by_cases hp : s.phase = split_phase.idle <;> simp [split_step, hp] at h
  | prepare_done b =>
    exfalso
    by_cases hb : b = s.child_init_ballot
    · by_cases hp : s.phase = split_phase.preparing_child <;>
        simp [split_step, hb, hp] at h
    · simp [split_step, hb] at h
  | child_catch_up b flag =>
    refine ⟨b, ?_⟩
    cases flag with
    | true => rfl
    | false =>
      exfalso
      by_cases hb : b = s.child_init_ballot <;> simp [split_step, hb] at h
  | register_reply b success =>
    exfalso
    by_cases hb : b = s.child_init_ballot
    · by_cases hp : s.phase = split_phase.registering
      · cases success <;> simp [split_step, hb, hp] at h
      · simp [split_step, hb, hp] at h
    · simp [split_step, hb] at h

/-- Claim C8: in every run of the parent split protocol, a register-child
request appears among the emitted actions only if the trace contains a
child catch-up notification reporting the sync point committed —
registration never happens without that confirmation. -/
theorem register_only_after_catch_up (s : replica_split_manager)
    (es : List split_event) (g : gpid) (b' : Int)
    (h : split_action.send_register_request g b' ∈ (split_run s es).2) :
    ∃ b, split_event.child_catch_up b true ∈ es := by
  induction es generalizing s with
  | nil => simp [split_run] at h
  | cons e es ih =>
    simp only [split_run, List.mem_append] at h
    rcases h with h | h
    · obtain ⟨b, hb⟩ := split_step_register_source s e g b' h
      exact ⟨b, by simp [hb]⟩
    · obtain ⟨b, hb⟩ := ih (split_step s e).1 h
      exact ⟨b, List.mem_cons_of_mem _ hb⟩

/-- Witness for claim C8: the idle parent runs start → prepare-done →
catch-up(committed) at ballot 7, emitting the register request for child
(1, 4). -/
theorem register_only_after_catch_up_witness :
    ∃ b, split_event.child_catch_up b true ∈
        [split_event.on_add_child 7, split_event.prepare_done 7,
         split_event.child_catch_up 7 true] :=
  register_only_after_catch_up split_ex_idle
    [split_event.on_add_child 7, split_event.prepare_done 7,
     split_event.child_catch_up 7 true]
    { app_id := 1, pidx := 4 } 7 (by decide)

end Rdsn
